import Mathlib

/-!
Verification development for the Chip-Planer MVP application
(`chip_planer_mvp.py`): a shallow embedding of the shape data model
(`PartitionRect`), its serialization (`to_dict` / `from_dict`), and the main
window operations (draw-commit, add-by-coordinates, lock toggling, deletion,
unit change, JSON load), together with theorems settling the behavioural
claims about them.

Geometry is modelled over `ℚ` (the Python code performs only exact additions
and comparisons on these floats for the properties at issue).  Fresh UUIDs
are made explicit as string parameters.  Dialog and file-system
nondeterminism is made explicit as `Option` / `Except` inputs.
-/

set_option autoImplicit false

namespace ChipPlaner

/-- Leaf JSON values, used for the free-form per-shape `properties` mapping
(opaque to the core logic). -/
inductive PropValue where
  | null : PropValue
  | bool (b : Bool) : PropValue
  | num (q : ℚ) : PropValue
  | str (s : String) : PropValue
  deriving Repr, DecidableEq

/-- Model of Qt's `QPointF`. -/
structure QPointF where
  x : ℚ
  y : ℚ
  deriving Repr, DecidableEq

/-- Model of Qt's `QRectF` (origin plus extents; extents may be negative
until normalized, exactly as in Qt). -/
structure QRectF where
  x : ℚ
  y : ℚ
  width : ℚ
  height : ℚ
  deriving Repr, DecidableEq

/-- Qt's `QRectF.normalized()`: flip a negative width or height so that both
extents come out non-negative, keeping the same point set. -/
def QRectF.normalized (r : QRectF) : QRectF :=
  let xw := if r.width < 0 then (r.x + r.width, -r.width) else (r.x, r.width)
  let yh := if r.height < 0 then (r.y + r.height, -r.height) else (r.y, r.height)
  ⟨xw.1, yh.1, xw.2, yh.2⟩

/-- Pen line styles used by the application (`Qt.SolidLine` default,
`Qt.DashLine` for locked shapes). -/
inductive PenStyle where
  | solidLine
  | dashLine
  deriving Repr, DecidableEq

/-- Colors used by the application. -/
inductive Color where
  | black
  | red
  | blue
  | rgba (r g b a : Nat)
  deriving Repr, DecidableEq

/-- Model of `QPen` (color, width, line style). -/
structure QPen where
  color : Color
  width : ℚ
  style : PenStyle
  deriving Repr, DecidableEq

/-- Model of `QBrush` (fill color). -/
structure QBrush where
  color : Color
  deriving Repr, DecidableEq

/-- In-memory state of one `PartitionRect` graphics item: its local rect, the
item position (`pos`, the translation applied by dragging), identity and
metadata, plus the Qt item flags and visual state the code manipulates. -/
structure PartitionRect where
  rect : QRectF
  pos : QPointF
  uid : String
  units : String
  locked : Bool
  properties : List (String × PropValue)
  selectable : Bool
  movable : Bool
  pen : QPen
  brush : QBrush
  selected : Bool
  deriving Repr, DecidableEq

/-- The pen `update_visual` installs for a given lock state:
`QPen(Qt.red, 0, Qt.DashLine)` when locked, `QPen(Qt.black, 0)` otherwise. -/
def penFor (locked : Bool) : QPen :=
  if locked then ⟨Color.red, 0, PenStyle.dashLine⟩
  else ⟨Color.black, 0, PenStyle.solidLine⟩

/-- The brush `update_visual` installs for a given lock state:
`QColor(255,200,200,160)` when locked, `QColor(200,220,255,160)` otherwise. -/
def brushFor (locked : Bool) : QBrush :=
  if locked then ⟨Color.rgba 255 200 200 160⟩
  else ⟨Color.rgba 200 220 255 160⟩

/-- `PartitionRect.update_visual`: recompute pen, brush and the
`ItemIsMovable` flag from the current `locked` flag. -/
def PartitionRect.update_visual (s : PartitionRect) : PartitionRect :=
  { s with pen := penFor s.locked, brush := brushFor s.locked,
           movable := !s.locked }

/-- `PartitionRect.__init__(rect, uid=None, units="um", locked=False,
properties=None)`: position starts at the origin, `uid or str(uuid.uuid4())`
generates a fresh id when `uid` is absent or empty (`freshId` stands for the
generated UUID string), `properties or {}` defaults to the empty mapping, the
selectable / movable flags are set, and `update_visual` runs last. -/
def mkPartitionRect (rect : QRectF) (uid : Option String) (freshId : String)
    (units : String) (locked : Bool)
    (properties : Option (List (String × PropValue))) : PartitionRect :=
  PartitionRect.update_visual
    { rect := rect
      pos := ⟨0, 0⟩
      uid := match uid with
             | some u => if u = "" then freshId else u
             | none => freshId
      units := units
      locked := locked
      properties := properties.getD []
      selectable := true
      movable := true
      pen := penFor false
      brush := brushFor false
      selected := false }

/-- `PartitionRect.set_locked`: store the new lock state, then
`update_visual`. -/
def PartitionRect.set_locked (s : PartitionRect) (locked : Bool) :
    PartitionRect :=
  PartitionRect.update_visual { s with locked := locked }

/-- `PartitionRect.itemChange` on `ItemPositionChange`: return the current
position (rejecting the move) when locked, otherwise the proposed value. -/
def PartitionRect.itemChange (s : PartitionRect) (newPos : QPointF) :
    QPointF :=
  if s.locked then s.pos else newPos

/-- A move attempt: Qt sets the item position to whatever `itemChange`
returned for the proposed position. -/
def attemptMove (s : PartitionRect) (newPos : QPointF) : PartitionRect :=
  { s with pos := s.itemChange newPos }

/-- A well-typed JSON shape record, each field optional (absent key = `none`);
this is the shape of the dictionaries `to_dict` produces and `from_dict`
consumes. -/
structure ShapeRecord where
  id : Option String
  type : Option String
  x : Option ℚ
  y : Option ℚ
  width : Option ℚ
  height : Option ℚ
  units : Option String
  locked : Option Bool
  properties : Option (List (String × PropValue))
  deriving Repr, DecidableEq

/-- `PartitionRect.to_dict`: absolute geometry is the item position plus the
local rect origin; extents, units, lock state and properties are copied. -/
def PartitionRect.to_dict (s : PartitionRect) : ShapeRecord :=
  { id := some s.uid
    type := some "rect"
    x := some (s.pos.x + s.rect.x)
    y := some (s.pos.y + s.rect.y)
    width := some s.rect.width
    height := some s.rect.height
    units := some s.units
    locked := some s.locked
    properties := some s.properties }

/-- `PartitionRect.from_dict`: `d["x"]`, `d["y"]`, `d["width"]`, `d["height"]`
raise `KeyError` when absent; the optional fields use `d.get` defaults
(`id` → fresh, `units` → "um", `locked` → `False`, `properties` → `{}`), and
the reconstructed item is placed at position `(0,0)`. -/
def PartitionRect.from_dict (freshId : String) (d : ShapeRecord) :
    Except String PartitionRect :=
  match d.x, d.y, d.width, d.height with
  | some x, some y, some w, some h =>
      .ok (mkPartitionRect ⟨x, y, w, h⟩ d.id freshId (d.units.getD "um")
        (d.locked.getD false) d.properties)
  | _, _, _, _ => .error "KeyError"

/-- `ShapeRecord.hasGeom`: all four required geometry keys are present. -/
def ShapeRecord.hasGeom (d : ShapeRecord) : Bool :=
  d.x.isSome && d.y.isSome && d.width.isSome && d.height.isSome

/-- The item `from_dict` builds from a record with full geometry. -/
def recordItem (freshId : String) (d : ShapeRecord) : PartitionRect :=
  mkPartitionRect ⟨d.x.getD 0, d.y.getD 0, d.width.getD 0, d.height.getD 0⟩
    d.id freshId (d.units.getD "um") (d.locked.getD false) d.properties

/-- A parsed JSON document: optional top-level `units` and `shapes` keys
(`doc.get` is used for both in the code). -/
structure Doc where
  units : Option String
  shapes : Option (List ShapeRecord)
  deriving Repr, DecidableEq

/-- Main window state relevant to the claims: the scene's shape collection
(in insertion order), the session unit, and the draw-mode flag. -/
structure MainWindow where
  scene : List PartitionRect
  current_units : String
  draw_mode : Bool
  deriving Repr, DecidableEq

/-- `MainWindow.change_units(u)`: assign the session unit (the status-bar
message has no model content). -/
def MainWindow.change_units (st : MainWindow) (u : String) : MainWindow :=
  { st with current_units := u }

/-- Loop body of `toggle_lock_selected`: a selected item gets
`set_locked(not locked)`; others are untouched. -/
def toggleStep (it : PartitionRect) : PartitionRect :=
  if it.selected then it.set_locked (!it.locked) else it

/-- `MainWindow.toggle_lock_selected`: flip the lock state of every selected
shape in the scene. -/
def MainWindow.toggle_lock_selected (st : MainWindow) : MainWindow :=
  { st with scene := st.scene.map toggleStep }

/-- `MainWindow.delete_selected`: remove every selected item from the
scene. -/
def MainWindow.delete_selected (st : MainWindow) : MainWindow :=
  { st with scene := st.scene.filter fun it => !it.selected }

/-- `MainWindow.add_by_coords`: four sequential `QInputDialog.getDouble`
prompts (each `none` models a cancelled dialog; cancelling aborts with no
change); on four accepted values a new unlocked shape with exactly those
coordinates and the session unit is appended to the scene. -/
def MainWindow.add_by_coords (st : MainWindow)
    (px py pw ph : Option ℚ) (freshId : String) : MainWindow :=
  match px, py, pw, ph with
  | some x, some y, some w, some h =>
      { st with scene := st.scene ++
          [mkPartitionRect ⟨x, y, w, h⟩ none freshId st.current_units
            false none] }
  | _, _, _, _ => st

/-- `CanvasView.mouseReleaseEvent`, left-button release while drawing: the
preview rect is discarded; the normalized final rect is committed as a new
unlocked shape with the session unit exactly when both extents exceed 1. -/
def MainWindow.mouseReleaseDraw (st : MainWindow) (tempRect : QRectF)
    (freshId : String) : MainWindow :=
  let rect := tempRect.normalized
  if 1 < rect.width ∧ 1 < rect.height then
    { st with scene := st.scene ++
        [mkPartitionRect rect none freshId st.current_units false none] }
  else st

/-- The shape-loading loop of `load_json` after `scene.clear()`: records are
converted in order and appended; the first record that raises stops the loop,
leaving the already-added prefix in the scene (second component `false`
signals the exception). `freshIds i` is the UUID generated for the `i`-th
record, when needed. -/
def loadShapes (freshIds : Nat → String) :
    Nat → List ShapeRecord → List PartitionRect × Bool
  | _, [] => ([], true)
  | i, d :: ds =>
    match PartitionRect.from_dict (freshIds i) d with
    | .error _ => ([], false)
    | .ok item =>
      let rest := loadShapes freshIds (i + 1) ds
      (item :: rest.1, rest.2)

/-- The items produced from a list of records that all carry full
geometry. -/
def loadedItems (freshIds : Nat → String) :
    Nat → List ShapeRecord → List PartitionRect
  | _, [] => []
  | i, d :: ds => recordItem (freshIds i) d :: loadedItems freshIds (i + 1) ds

/-- `MainWindow.load_json` after a file name was chosen: `parsed` is the
outcome of `open` + `json.load` (`.error` = the exception raised before
`scene.clear()` runs).  On a parsed document the scene is cleared, records
are loaded in order, and only after the whole loop does the session unit
adopt `doc.get("units", current)`.  An exception inside the loop is caught by
the same handler, leaving the cleared-and-partially-repopulated scene in
place.  The returned flag records whether the error dialog was shown. -/
def MainWindow.load_json (st : MainWindow) (parsed : Except String Doc)
    (freshIds : Nat → String) : MainWindow × Bool :=
  match parsed with
  | .error _ => (st, true)
  | .ok doc =>
    let res := loadShapes freshIds 0 (doc.shapes.getD [])
    if res.2 then
      ({ st with scene := res.1,
                 current_units := doc.units.getD st.current_units }, false)
    else
      ({ st with scene := res.1 }, true)

/-- The visual/flag state every shape in the running program satisfies:
pen, brush and movability agree with the lock flag (established by the
constructor and re-established by every `set_locked`). -/
def visualInvariant (s : PartitionRect) : Prop :=
  s.pen = penFor s.locked ∧ s.brush = brushFor s.locked ∧
    s.movable = !s.locked

instance (s : PartitionRect) : Decidable (visualInvariant s) := by
  unfold visualInvariant
  infer_instance

/-- A fixed fresh-id supply for concrete evaluations. -/
def f0 : Nat → String := fun _ => "uuid-0"

/-- A concrete shape with a known id. -/
def s0 : PartitionRect :=
  mkPartitionRect ⟨0, 0, 10, 10⟩ (some "a") "g" "um" false none

/-- A window whose scene holds one shape. -/
def st0 : MainWindow := ⟨[s0], "um", false⟩

/-- A window with an empty scene. -/
def stEmpty : MainWindow := ⟨[], "um", false⟩

/-- A shape record missing the required `width` field. -/
def badRec : ShapeRecord :=
  ⟨none, none, some 1, some 2, none, some 3, none, none, none⟩

/-- A document whose single record lacks required geometry. -/
def docBad : Doc := ⟨some "um", some [badRec]⟩

/-- A record with full geometry and every optional field absent. -/
def dBare : ShapeRecord :=
  ⟨none, none, some 0, some 0, some 5, some 5, none, none, none⟩

/-- A document with document-level units "mm" whose single shape record omits
its per-shape `units`. -/
def docMM : Doc := ⟨some "mm", some [dBare]⟩

/-- A concrete locked shape. -/
def lockedShape : PartitionRect :=
  mkPartitionRect ⟨0, 0, 4, 4⟩ none "l1" "um" true none

/-- A concrete unlocked shape. -/
def unlockedShape : PartitionRect :=
  mkPartitionRect ⟨0, 0, 4, 4⟩ none "u1" "um" false none

/-- A concrete proposed position. -/
def p0 : QPointF := ⟨7, 8⟩

/-- The locked shape, selected. -/
def lockedSelShape : PartitionRect := { lockedShape with selected := true }

/-- A window whose scene holds one selected, locked shape. -/
def stLS : MainWindow := ⟨[lockedSelShape], "um", false⟩

/-- A window with an empty scene and session unit "mm". -/
def stMM : MainWindow := ⟨[], "mm", false⟩

/-! ## Supporting lemmas -/

theorem from_dict_ok_of_hasGeom (fid : String) (d : ShapeRecord)
    (h : d.hasGeom = true) :
    PartitionRect.from_dict fid d = .ok (recordItem fid d) := by
  rcases d with ⟨i, t, x, y, w, ht, u, l, p⟩
  cases x <;> cases y <;> cases w <;> cases ht <;>
    first
      | rfl
      | simp [ShapeRecord.hasGeom] at h

theorem from_dict_error_of_not_hasGeom (fid : String) (d : ShapeRecord)
    (h : d.hasGeom = false) :
    PartitionRect.from_dict fid d = .error "KeyError" := by
  rcases d with ⟨i, t, x, y, w, ht, u, l, p⟩
  cases x <;> cases y <;> cases w <;> cases ht <;>
    first
      | rfl
      | simp [ShapeRecord.hasGeom] at h

theorem loadShapes_all_ok (f : Nat → String) :
    ∀ (good : List ShapeRecord) (i : Nat),
      (∀ d ∈ good, d.hasGeom = true) →
      loadShapes f i good = (loadedItems f i good, true)
  | [], _, _ => rfl
  | d :: ds, i, hg => by
      have h1 : d.hasGeom = true := hg d (List.mem_cons_self _ _)
      have h2 : ∀ x ∈ ds, x.hasGeom = true :=
        fun x hx => hg x (List.mem_cons_of_mem _ hx)
      simp [loadShapes, loadedItems, from_dict_ok_of_hasGeom (f i) d h1,
        loadShapes_all_ok f ds (i + 1) h2]

theorem loadShapes_fail (f : Nat → String) (bad : ShapeRecord)
    (rest : List ShapeRecord) (hbad : bad.hasGeom = false) :
    ∀ (good : List ShapeRecord) (i : Nat),
      (∀ d ∈ good, d.hasGeom = true) →
      loadShapes f i (good ++ bad :: rest) = (loadedItems f i good, false)
  | [], i, _ => by
      simp [loadShapes, loadedItems,
        from_dict_error_of_not_hasGeom (f i) bad hbad]
  | d :: ds, i, hg => by
      have h1 : d.hasGeom = true := hg d (List.mem_cons_self _ _)
      have h2 : ∀ x ∈ ds, x.hasGeom = true :=
        fun x hx => hg x (List.mem_cons_of_mem _ hx)
      simp [loadShapes, loadedItems, from_dict_ok_of_hasGeom (f i) d h1,
        loadShapes_fail f bad rest hbad ds (i + 1) h2]

theorem visualInvariant_mk (rect : QRectF) (uid : Option String)
    (fid units : String) (locked : Bool)
    (props : Option (List (String × PropValue))) :
    visualInvariant (mkPartitionRect rect uid fid units locked props) := by
  simp [mkPartitionRect, PartitionRect.update_visual, visualInvariant]

theorem visualInvariant_set_locked (s : PartitionRect) (l : Bool) :
    visualInvariant (s.set_locked l) := by
  simp [PartitionRect.set_locked, PartitionRect.update_visual,
    visualInvariant]

theorem toggleStep_involutive (s : PartitionRect) (h : visualInvariant s) :
    toggleStep (toggleStep s) = s := by
  obtain ⟨hp, hb, hm⟩ := h
  rcases s with ⟨rect, pos, uid, units, locked, props, selb, mov, pen, brush,
    sel⟩
  cases sel <;>
    simp_all [toggleStep, PartitionRect.set_locked,
      PartitionRect.update_visual]

theorem map_map_self_of_inv {α : Type} (f : α → α) (P : α → Prop)
    (hf : ∀ a, P a → f (f a) = a) :
    ∀ l : List α, (∀ a ∈ l, P a) → (l.map f).map f = l
  | [], _ => rfl
  | a :: as, h => by
      simp [hf a (h a (List.mem_cons_self _ _)),
        map_map_self_of_inv f P hf as
          (fun x hx => h x (List.mem_cons_of_mem _ hx))]

/-! ## Claim theorems -/

/-- Claim C1 (amended): a load failing in `open`/`json.load` (missing file,
malformed JSON) surfaces an error and leaves the window state unchanged; but
a load failing on a shape record missing a required geometry field surfaces
an error with the scene already cleared and repopulated only with the items
built from the records preceding the failing one — the pre-load scene
content is lost (partial repopulation, not all-or-nothing). -/
theorem C1_load_failure :
    (∀ (st : MainWindow) (e : String) (f : Nat → String),
      st.load_json (Except.error e) f = (st, true)) ∧
    (∀ (st : MainWindow) (f : Nat → String) (u : Option String)
      (good : List ShapeRecord) (bad : ShapeRecord)
      (rest : List ShapeRecord),
      (∀ d ∈ good, d.hasGeom = true) → bad.hasGeom = false →
      st.load_json (Except.ok ⟨u, some (good ++ bad :: rest)⟩) f =
        ({ st with scene := loadedItems f 0 good }, true)) := by
  constructor
  · intro st e f
    rfl
  · intro st f u good bad rest hg hbad
    simp [MainWindow.load_json, loadShapes_fail f bad rest hbad good 0 hg]

/-- Claim C1 counterexample: loading a document whose single shape record
lacks the `width` field surfaces an error, yet the scene after the failed
load is empty rather than equal to the one-shape scene before the load. -/
theorem C1_counterexample :
    (st0.load_json (Except.ok docBad) f0).2 = true ∧
    (st0.load_json (Except.ok docBad) f0).1.scene ≠ st0.scene := by
  decide

/-- Claim C1 witness: the amended theorem applied at concrete inputs. -/
theorem C1_load_failure_witness :
    st0.load_json (Except.error "FileNotFoundError") f0 = (st0, true) ∧
    st0.load_json (Except.ok docBad) f0 =
      ({ st0 with scene := loadedItems f0 0 [] }, true) :=
  ⟨C1_load_failure.1 st0 "FileNotFoundError" f0,
   C1_load_failure.2 st0 f0 (some "um") [] badRec [] (by simp) (by decide)⟩

/-- Claim C2: serializing any shape with `to_dict` and reconstructing with
`from_dict` succeeds and yields an equivalent shape: same id, same absolute
geometry (position offset plus rect origin, with zero translation after
reconstruction), same extents, units, lock flag and properties.  Every shape
the program constructs has a non-empty id, which the hypothesis records. -/
theorem C2_roundtrip (s : PartitionRect) (fid : String) (h : s.uid ≠ "") :
    ∃ t, PartitionRect.from_dict fid s.to_dict = .ok t ∧
      t.uid = s.uid ∧ t.pos = ⟨0, 0⟩ ∧
      t.pos.x + t.rect.x = s.pos.x + s.rect.x ∧
      t.pos.y + t.rect.y = s.pos.y + s.rect.y ∧
      t.rect.width = s.rect.width ∧ t.rect.height = s.rect.height ∧
      t.units = s.units ∧ t.locked = s.locked ∧
      t.properties = s.properties := by
  refine ⟨recordItem fid s.to_dict, from_dict_ok_of_hasGeom _ _ (by
    simp [PartitionRect.to_dict, ShapeRecord.hasGeom]), ?_⟩
  simp [recordItem, PartitionRect.to_dict, mkPartitionRect,
    PartitionRect.update_visual, h]

/-- Claim C2 witness: the round trip evaluated on a concrete shape. -/
theorem C2_roundtrip_witness :
    ∃ t, PartitionRect.from_dict "w2" s0.to_dict = Except.ok t ∧
      t.uid = s0.uid ∧ t.pos = ⟨0, 0⟩ ∧
      t.pos.x + t.rect.x = s0.pos.x + s0.rect.x ∧
      t.pos.y + t.rect.y = s0.pos.y + s0.rect.y ∧
      t.rect.width = s0.rect.width ∧ t.rect.height = s0.rect.height ∧
      t.units = s0.units ∧ t.locked = s0.locked ∧
      t.properties = s0.properties :=
  C2_roundtrip s0 "w2" (by decide)

/-- Claim C3: a move attempt on a locked shape leaves the position unchanged;
on an unlocked shape it sets the position to the proposed value. -/
theorem C3_attemptMove (s : PartitionRect) (p : QPointF) :
    (s.locked = true → (attemptMove s p).pos = s.pos) ∧
    (s.locked = false → (attemptMove s p).pos = p) := by
  constructor <;> intro h <;> simp [attemptMove, PartitionRect.itemChange, h]

/-- Claim C3 witness: a rejected move on a locked shape and an accepted move
on an unlocked one, at concrete inputs. -/
theorem C3_attemptMove_witness :
    (attemptMove lockedShape p0).pos = lockedShape.pos ∧
    (attemptMove unlockedShape p0).pos = p0 :=
  ⟨(C3_attemptMove lockedShape p0).1 (by decide),
   (C3_attemptMove unlockedShape p0).2 (by decide)⟩

/-- Claim C4: on left-button release of a draw gesture, the normalized final
rectangle is committed as a new unlocked shape with the session's current
unit exactly when both its width and its height exceed 1; otherwise the
window state is unchanged and no error is raised (the operation is total). -/
theorem C4_mouseReleaseDraw (st : MainWindow) (r : QRectF) (fid : String) :
    (1 < r.normalized.width ∧ 1 < r.normalized.height →
      st.mouseReleaseDraw r fid =
        { st with scene := st.scene ++
            [mkPartitionRect r.normalized none fid st.current_units false
              none] } ∧
      (mkPartitionRect r.normalized none fid st.current_units false
        none).locked = false ∧
      (mkPartitionRect r.normalized none fid st.current_units false
        none).units = st.current_units) ∧
    (¬(1 < r.normalized.width ∧ 1 < r.normalized.height) →
      st.mouseReleaseDraw r fid = st) := by
  constructor
  · intro h
    refine ⟨?_, by simp [mkPartitionRect, PartitionRect.update_visual],
      by simp [mkPartitionRect, PartitionRect.update_visual]⟩
    unfold MainWindow.mouseReleaseDraw
    simp [h]
  · intro h
    unfold MainWindow.mouseReleaseDraw
    simp [h]

/-- Claim C4 witness: a 5-by-7 final rectangle is committed, at concrete
inputs. -/
theorem C4_mouseReleaseDraw_witness :
    stEmpty.mouseReleaseDraw ⟨0, 0, 5, 7⟩ "w4" =
      { stEmpty with scene := stEmpty.scene ++
          [mkPartitionRect (QRectF.normalized ⟨0, 0, 5, 7⟩) none "w4"
            stEmpty.current_units false none] } ∧
    (mkPartitionRect (QRectF.normalized ⟨0, 0, 5, 7⟩) none "w4"
      stEmpty.current_units false none).locked = false ∧
    (mkPartitionRect (QRectF.normalized ⟨0, 0, 5, 7⟩) none "w4"
      stEmpty.current_units false none).units = stEmpty.current_units :=
  (C4_mouseReleaseDraw stEmpty ⟨0, 0, 5, 7⟩ "w4").1 (by decide)

/-- Claim C5 counterexample: the document-level unit is "mm" and its single
shape record omits `units`, yet the loaded shape's units are "um", not the
document-level unit "mm". -/
theorem C5_counterexample :
    ((stEmpty.load_json (Except.ok docMM) f0).1.scene.map
      PartitionRect.units) = ["um"] ∧
    docMM.units = some "mm" ∧ ("um" : String) ≠ "mm" := by
  decide

/-- Claim C5 (amended): for a record containing the required geometry
fields, `from_dict` succeeds; an omitted `id` yields the freshly generated
identifier, an omitted `units` defaults to "um" unconditionally (the
document-level unit is not consulted), an omitted `locked` defaults to
unlocked, and omitted `properties` default to the empty mapping. -/
theorem C5_from_dict_defaults (fid : String) (d : ShapeRecord)
    (hg : d.hasGeom = true) :
    ∃ t, PartitionRect.from_dict fid d = .ok t ∧
      (d.id = none → t.uid = fid) ∧
      (d.units = none → t.units = "um") ∧
      (d.locked = none → t.locked = false) ∧
      (d.properties = none → t.properties = []) := by
  refine ⟨recordItem fid d, from_dict_ok_of_hasGeom fid d hg, ?_, ?_, ?_, ?_⟩
  all_goals intro h
  all_goals simp [recordItem, mkPartitionRect, PartitionRect.update_visual, h]

/-- Claim C5 witness: the defaults evaluated on a record with bare
geometry. -/
theorem C5_defaults_witness :
    ∃ t, PartitionRect.from_dict "w5" dBare = Except.ok t ∧
      (dBare.id = none → t.uid = "w5") ∧
      (dBare.units = none → t.units = "um") ∧
      (dBare.locked = none → t.locked = false) ∧
      (dBare.properties = none → t.properties = []) :=
  C5_from_dict_defaults "w5" dBare (by decide)

/-- Claim C6: if any of the four coordinate prompts is cancelled,
`add_by_coords` leaves the window unchanged; if all four return values,
exactly one new unlocked shape with exactly those coordinates and the
session's current unit is appended to the scene. -/
theorem C6_add_by_coords (st : MainWindow) (px py pw ph : Option ℚ)
    (fid : String) :
    ((px = none ∨ py = none ∨ pw = none ∨ ph = none) →
      st.add_by_coords px py pw ph fid = st) ∧
    (∀ x y w h, px = some x → py = some y → pw = some w → ph = some h →
      st.add_by_coords px py pw ph fid =
        { st with scene := st.scene ++
            [mkPartitionRect ⟨x, y, w, h⟩ none fid st.current_units false
              none] } ∧
      (mkPartitionRect ⟨x, y, w, h⟩ none fid st.current_units false
        none).locked = false ∧
      (mkPartitionRect ⟨x, y, w, h⟩ none fid st.current_units false
        none).units = st.current_units ∧
      (mkPartitionRect ⟨x, y, w, h⟩ none fid st.current_units false
        none).rect = ⟨x, y, w, h⟩) := by
  constructor
  · intro h
    cases px <;> cases py <;> cases pw <;> cases ph <;>
      first
        | rfl
        | simp_all
  · intro x y w h hx hy hw hh
    subst hx; subst hy; subst hw; subst hh
    refine ⟨rfl, ?_, ?_, ?_⟩ <;>
      simp [mkPartitionRect, PartitionRect.update_visual]

/-- Claim C6 witness: the spec's example (10, 10, 50, 30) in "mm", at
concrete inputs. -/
theorem C6_add_by_coords_witness :
    stMM.add_by_coords (some 10) (some 10) (some 50) (some 30) "w6" =
      { stMM with scene := stMM.scene ++
          [mkPartitionRect ⟨10, 10, 50, 30⟩ none "w6" stMM.current_units
            false none] } ∧
    (mkPartitionRect ⟨10, 10, 50, 30⟩ none "w6" stMM.current_units
      false none).locked = false ∧
    (mkPartitionRect ⟨10, 10, 50, 30⟩ none "w6" stMM.current_units
      false none).units = stMM.current_units ∧
    (mkPartitionRect ⟨10, 10, 50, 30⟩ none "w6" stMM.current_units
      false none).rect = ⟨10, 10, 50, 30⟩ :=
  (C6_add_by_coords stMM (some 10) (some 10) (some 50) (some 30) "w6").2
    10 10 50 30 rfl rfl rfl rfl

/-- Claim C7 counterexample: `add_by_coords` accepts a negative width; the
resulting scene holds a shape of width -5, which is neither non-negative nor
greater than 1, so interactive creation by coordinates does not enforce the
claimed invariant. -/
theorem C7_counterexample :
    ((stEmpty.add_by_coords (some 10) (some 10) (some (-5)) (some 30)
        "c7").scene.map fun s => s.rect.width) = [(-5 : ℚ)] ∧
    ¬(0 ≤ (-5 : ℚ)) := by
  decide

/-- Claim C7 (amended): only the draw gesture enforces the minimum size —
every shape the draw-commit adds beyond the existing scene has width and
height strictly greater than 1; coordinate entry and document load add
shapes with exactly the supplied geometry, unchecked, so those may have
width or height ≤ 1 or even negative. -/
theorem C7_draw_threshold (st : MainWindow) (r : QRectF) (fid : String)
    (s : PartitionRect) (hs : s ∈ (st.mouseReleaseDraw r fid).scene)
    (hnew : s ∉ st.scene) :
    1 < s.rect.width ∧ 1 < s.rect.height := by
  unfold MainWindow.mouseReleaseDraw at hs
  by_cases h : 1 < r.normalized.width ∧ 1 < r.normalized.height
  · simp [h] at hs
    rcases hs with hs | hs
    · exact absurd hs hnew
    · subst hs
      simpa [mkPartitionRect, PartitionRect.update_visual] using h
  · simp [h] at hs
    exact absurd hs hnew

/-- Claim C7 witness: the freshly drawn 5-by-7 shape satisfies the
threshold, at concrete inputs. -/
theorem C7_draw_threshold_witness :
    1 < (mkPartitionRect (QRectF.normalized ⟨0, 0, 5, 7⟩) none "w7" "um"
        false none).rect.width ∧
    1 < (mkPartitionRect (QRectF.normalized ⟨0, 0, 5, 7⟩) none "w7" "um"
        false none).rect.height :=
  C7_draw_threshold stEmpty ⟨0, 0, 5, 7⟩ "w7"
    (mkPartitionRect (QRectF.normalized ⟨0, 0, 5, 7⟩) none "w7" "um" false
      none)
    (by decide) (by decide)

/-- Claim C8: applying `toggle_lock_selected` twice to the same selection
restores the whole window state, in particular each shape's original locked
flag, movable flag, pen and brush.  The hypothesis records the visual
invariant that every shape in the running program satisfies (established by
the constructor and by every `set_locked`). -/
theorem C8_toggle_involution (st : MainWindow)
    (h : ∀ s ∈ st.scene, visualInvariant s) :
    st.toggle_lock_selected.toggle_lock_selected = st := by
  rcases st with ⟨scene, u, dm⟩
  simp only [MainWindow.toggle_lock_selected, MainWindow.mk.injEq,
    and_true, true_and]
  exact map_map_self_of_inv toggleStep visualInvariant toggleStep_involutive
    scene h

/-- Claim C8 witness: double toggle on a window holding one selected locked
shape, at concrete inputs. -/
theorem C8_toggle_involution_witness :
    stLS.toggle_lock_selected.toggle_lock_selected = stLS :=
  C8_toggle_involution stLS (by decide)

/-- Claim C9: `change_units u` sets the session's current unit to `u` and
leaves the scene — hence every existing shape's stored units field, rect
geometry and position — unchanged. -/
theorem C9_change_units (st : MainWindow) (u : String) :
    (st.change_units u).current_units = u ∧
    (st.change_units u).scene = st.scene ∧
    (st.change_units u).scene.map PartitionRect.units =
      st.scene.map PartitionRect.units ∧
    (st.change_units u).scene.map PartitionRect.rect =
      st.scene.map PartitionRect.rect ∧
    (st.change_units u).scene.map PartitionRect.pos =
      st.scene.map PartitionRect.pos :=
  ⟨rfl, rfl, rfl, rfl, rfl⟩

/-- Claim C10: the lock flag never disables selection or deletion — a shape
constructed locked is still selectable, `set_locked` never changes
selectability, and `delete_selected` removes every selected shape, locked or
not, from the scene. -/
theorem C10_delete_selected_locked :
    (∀ (rect : QRectF) (uid : Option String) (fid units : String)
      (props : Option (List (String × PropValue))),
      (mkPartitionRect rect uid fid units true props).selectable = true) ∧
    (∀ (s : PartitionRect) (l : Bool),
      (s.set_locked l).selectable = s.selectable) ∧
    (∀ (st : MainWindow) (s : PartitionRect), s.locked = true →
      s.selected = true → s ∉ st.delete_selected.scene) := by
  refine ⟨fun rect uid fid units props => rfl, fun s l => rfl, ?_⟩
  intro st s _hlock hsel hmem
  unfold MainWindow.delete_selected at hmem
  have hfil := (List.mem_filter.mp hmem).2
  simp [hsel] at hfil

/-- Claim C10 witness: the selected locked shape is removed by
`delete_selected`, at concrete inputs. -/
theorem C10_delete_selected_witness :
    (mkPartitionRect ⟨0, 0, 4, 4⟩ none "wX" "um" true none).selectable
      = true ∧
    (lockedSelShape.set_locked false).selectable =
      lockedSelShape.selectable ∧
    lockedSelShape ∉ stLS.delete_selected.scene :=
  ⟨C10_delete_selected_locked.1 ⟨0, 0, 4, 4⟩ none "wX" "um" none,
   C10_delete_selected_locked.2.1 lockedSelShape false,
   C10_delete_selected_locked.2.2 stLS lockedSelShape (by decide)
     (by decide)⟩

end ChipPlaner
